import Mathlib

/-!
Verification of the four-stage NL2SQL pipeline in `src/agent.py`.

The pipeline is a linear LangGraph graph over a shared `AgentState` record:
`get_schema → generate_sql → execute_sql → generate_answer`.  Each node
receives the current state and returns a partial state update (a Python dict
whose present keys overwrite the corresponding state fields).  External
effects — the two database calls and the two LLM calls — are modelled by an
`Oracle` of response functions: each call either succeeds with a string
(`Except.ok`) or raises an exception carrying a message (`Except.error`).
Python strings are modelled as `List Char` (`Str`); Python `None` and an
absent dict key are both modelled by `Option.none` on state fields, while a
`StateUpdate` field distinguishes "key absent" (`none`) from "key present
with value None" (`some none`), exactly as a LangGraph update dict does.
-/

namespace Agent

/-- Python strings, modelled as lists of characters. -/
abbrev Str := List Char

/-- Whitespace as recognised by Python's `str.strip()` (ASCII part). -/
def pyIsSpace (c : Char) : Bool :=
  c = ' ' || c = '\t' || c = '\n' || c = '\r' || c = '\x0b' || c = '\x0c'

/-- Python `s.strip()`: remove leading and trailing whitespace. -/
def pystrip (l : Str) : Str :=
  List.rdropWhile pyIsSpace (List.dropWhile pyIsSpace l)

/-- The markdown fence token. -/
def fence : Str := "```".toList

/-- The SQL-tagged markdown fence opener. -/
def fenceOpen : Str := "```sql".toList

/-- The post-processing of the raw LLM response in `generate_sql`
(agent.py lines 47-52): strip, drop a leading "```sql" (6 chars, `[6:]`),
drop a trailing "```" (`[:-3]`), strip again. -/
def cleanSql (raw : Str) : Str :=
  let s1 := pystrip raw
  let s2 := if fenceOpen.isPrefixOf s1 then s1.drop 6 else s1
  let s3 := if fence.isSuffixOf s2 then s2.rdrop 3 else s2
  pystrip s3

/-- The `AgentState` TypedDict of agent.py.  `none` models a field that is
absent from the state dict or holds Python `None` (the two are
indistinguishable to every read the nodes perform, all of which go through
`dict.get` truthiness or happen on paths where the field is present). -/
structure AgentState where
  question : Str
  db_uri : Str
  schema : Option Str := none
  sql_query : Option Str := none
  sql_result : Option Str := none
  answer : Option Str := none
  error : Option Str := none
  deriving DecidableEq

/-- A partial state update returned by a node: for each field, `none` means
the key is absent from the returned dict, `some v` means the key is present
and maps to `v` (`some none` = present with value Python `None`).
`question` and `db_uri` are never written by any node. -/
structure StateUpdate where
  schema : Option (Option Str) := none
  sql_query : Option (Option Str) := none
  sql_result : Option (Option Str) := none
  answer : Option (Option Str) := none
  error : Option (Option Str) := none
  deriving DecidableEq

/-- Merge one updated field into the old value (LangGraph key overwrite). -/
def applyField (old : Option Str) (upd : Option (Option Str)) : Option Str :=
  match upd with
  | none => old
  | some v => v

/-- Merge a node's update dict into the state, key by key. -/
def applyUpdate (s : AgentState) (u : StateUpdate) : AgentState :=
  { s with
    schema := applyField s.schema u.schema
    sql_query := applyField s.sql_query u.sql_query
    sql_result := applyField s.sql_result u.sql_result
    answer := applyField s.answer u.answer
    error := applyField s.error u.error }

/-- Python truthiness of `state.get(key)`: false for an absent key, for
`None`, and for the empty string. -/
def truthy : Option Str → Bool
  | none => false
  | some s => !s.isEmpty

/-- The external world: database and LLM calls, each mapping its input to
either a successful response or a raised exception's message. -/
structure Oracle where
  dbSchema : Str → Except Str Str
  genLLM : Str → Except Str Str
  dbRun : Str → Str → Except Str Str
  ansLLM : Str → Except Str Str

/-- Error message built by `get_schema` on failure (agent.py line 26). -/
def errGettingSchema (e : Str) : Str :=
  "Error getting schema: ".toList ++ e

/-- Node `get_schema` (agent.py lines 17-26): connects via the state's
`db_uri` and fetches the schema.  No skip-if-error guard; on success the
returned dict sets `schema` and explicitly sets `error` to `None`. -/
def get_schema (dbSchema : Str → Except Str Str) (state : AgentState) :
    StateUpdate :=
  match dbSchema state.db_uri with
  | .ok schema => { schema := some (some schema), error := some none }
  | .error e => { error := some (some (errGettingSchema e)) }

/-- The prompt built by `generate_sql` (agent.py lines 35-43). -/
def sqlPrompt (schema question : Str) : Str :=
  "\n    Based on the database schema below, write a single, syntactically correct PostgreSQL query\n    to answer the following question. Do not explain the query, just return the SQL.\n    Schema:\n    ".toList
    ++ schema
    ++ "\n    Question:\n    ".toList
    ++ question
    ++ "\n    SQL Query:\n    ".toList

/-- Error message built by `generate_sql` on failure (agent.py line 55). -/
def errGeneratingSql (e : Str) : Str :=
  "Error generating SQL: ".toList ++ e

/-- Node `generate_sql` (agent.py lines 28-55): returns the empty update if
`error` is truthy; otherwise invokes the LLM on the prompt and returns the
cleaned SQL (with `error` reset to `None`), or the failure message.
The `getD []` on `schema` mirrors `state['schema']`; past the guard the
field is always present, so the default is never read on a reachable state. -/
def generate_sql (llm : Str → Except Str Str) (state : AgentState) :
    StateUpdate :=
  if truthy state.error then {}
  else
    match llm (sqlPrompt (state.schema.getD []) state.question) with
    | .ok content =>
        { sql_query := some (some (cleanSql content)), error := some none }
    | .error e => { error := some (some (errGeneratingSql e)) }

/-- Error message built by `execute_sql` on failure (agent.py line 68):
embeds both the exception text and the offending query. -/
def errExecutingSql (e query : Str) : Str :=
  "Error executing SQL: ".toList ++ e ++ ". Check your query: ".toList ++ query

/-- Node `execute_sql` (agent.py lines 57-68): returns the empty update if
`error` is truthy; otherwise runs `sql_query` against the database.  The
`getD []` mirrors `state['sql_query']`; past the guard the field is always
present on reachable states. -/
def execute_sql (dbRun : Str → Str → Except Str Str) (state : AgentState) :
    StateUpdate :=
  if truthy state.error then {}
  else
    match dbRun state.db_uri (state.sql_query.getD []) with
    | .ok result => { sql_result := some (some result), error := some none }
    | .error e =>
        { error := some (some (errExecutingSql e (state.sql_query.getD []))) }

/-- The error-branch prompt of `generate_answer` (agent.py lines 74-79). -/
def errorPrompt (question err : Str) : Str :=
  "\n        An error occurred trying to answer the question: \"".toList
    ++ question
    ++ "\"\n        The error was:\n        ".toList
    ++ err
    ++ "\n        Please explain this error to the user in a helpful, friendly way.\n        ".toList

/-- The success-branch prompt of `generate_answer` (agent.py lines 81-87). -/
def successPrompt (question query result : Str) : Str :=
  "\n        The user asked: \"".toList
    ++ question
    ++ "\"\n        We ran the SQL query: \"".toList
    ++ query
    ++ "\"\n        And got this result: \"".toList
    ++ result
    ++ "\"\n        Please provide a concise, natural language answer to the user\n        based on this information.\n        ".toList

/-- The prompt `generate_answer` sends, branching on `error` truthiness
(agent.py lines 73-87). -/
def answerPrompt (state : AgentState) : Str :=
  if truthy state.error then
    errorPrompt state.question (state.error.getD [])
  else
    successPrompt state.question (state.sql_query.getD [])
      (state.sql_result.getD [])

/-- Node `generate_answer` (agent.py lines 70-91): always invokes the LLM
(no skip guard, no try/except); an LLM exception propagates
(`Except.error`), a response sets `answer`. -/
def generate_answer (llm : Str → Except Str Str) (state : AgentState) :
    Except Str StateUpdate :=
  match llm (answerPrompt state) with
  | .ok content => .ok { answer := some (some content) }
  | .error e => .error e

/-- The initial state `run_agent_graph` builds (agent.py line 122): only
`question` and `db_uri` are present. -/
def initialState (question db_uri : Str) : AgentState :=
  { question := question, db_uri := db_uri }

/-- State after the `get_schema` node of the compiled linear graph. -/
def stateAfterSchema (o : Oracle) (q u : Str) : AgentState :=
  applyUpdate (initialState q u) (get_schema o.dbSchema (initialState q u))

/-- State after the `generate_sql` node. -/
def stateAfterGen (o : Oracle) (q u : Str) : AgentState :=
  applyUpdate (stateAfterSchema o q u)
    (generate_sql o.genLLM (stateAfterSchema o q u))

/-- State after the `execute_sql` node. -/
def stateAfterExec (o : Oracle) (q u : Str) : AgentState :=
  applyUpdate (stateAfterGen o q u)
    (execute_sql o.dbRun (stateAfterGen o q u))

/-- One invocation of the compiled graph (`app.invoke`): runs the four
nodes in the fixed linear order
`get_schema → generate_sql → execute_sql → generate_answer`, merging each
node's update; an exception raised inside `generate_answer` aborts the run
and propagates. -/
def runPipeline (o : Oracle) (q u : Str) : Except Str AgentState :=
  match generate_answer o.ansLLM (stateAfterExec o q u) with
  | .ok upd => .ok (applyUpdate (stateAfterExec o q u) upd)
  | .error e => .error e

/-- The fallback answer of `run_agent_graph` (agent.py line 125). -/
def fallbackMsg : Str :=
  "I'm sorry, I encountered an error and couldn't process your request.".toList

/-- Entry point `run_agent_graph` (agent.py lines 116-125): invokes the
graph on the initial state and returns `final_state.get("answer", fallback)`;
an exception escaping the graph escapes `run_agent_graph` too. -/
def run_agent_graph (o : Oracle) (question db_uri : Str) : Except Str Str :=
  match runPipeline o question db_uri with
  | .ok finalState => .ok (finalState.answer.getD fallbackMsg)
  | .error e => .error e

/-- A pipeline world in which every external call succeeds. -/
def happyOracle : Oracle :=
  { dbSchema := fun _ => .ok "users(id integer)".toList
    genLLM := fun _ => .ok "SELECT COUNT(*) FROM users;".toList
    dbRun := fun _ _ => .ok "[(42,)]".toList
    ansLLM := fun _ => .ok "There are 42 users.".toList }

/-- A world in which the schema introspection call raises. -/
def schemaFailOracle : Oracle :=
  { happyOracle with dbSchema := fun _ => .error "connection refused".toList }

/-- A world in which the SQL-generation LLM call raises. -/
def genFailOracle : Oracle :=
  { happyOracle with genLLM := fun _ => .error "rate limit".toList }

/-- A world in which the query-execution call raises. -/
def execFailOracle : Oracle :=
  { happyOracle with dbRun := fun _ _ => .error "missing relation".toList }

/-- A world in which the answer-synthesis LLM call raises. -/
def ansFailOracle : Oracle :=
  { happyOracle with ansLLM := fun _ => .error "llm down".toList }

/-- A concrete state carrying a non-empty `error` together with SQL fields. -/
def errStateA : AgentState :=
  { question := "q".toList, db_uri := "u".toList,
    sql_query := some "SELECT 1;".toList, sql_result := some "r1".toList,
    error := some "boom".toList }

/-- Like `errStateA` but with different `sql_query` and `sql_result`. -/
def errStateB : AgentState :=
  { question := "q".toList, db_uri := "u".toList,
    sql_query := some "SELECT 2;".toList, sql_result := some "r2".toList,
    error := some "boom".toList }

/-! ## Lemmas about `pystrip` and the fence guards -/

theorem dropWhile_pystrip_aux (p : Char → Bool) (l : Str) :
    List.dropWhile p (List.rdropWhile p (List.dropWhile p l))
      = List.rdropWhile p (List.dropWhile p l) := by
  rw [List.dropWhile_eq_self_iff]
  intro hl
  have hpre := List.rdropWhile_prefix p (List.dropWhile p l)
  have hlen : 0 < (List.dropWhile p l).length := lt_of_lt_of_le hl hpre.length_le
  have hx := List.dropWhile_get_zero_not p l hlen
  simp only [List.get_eq_getElem] at hx ⊢
  rw [hpre.getElem hl]
  exact hx

theorem pystrip_idempotent (l : Str) : pystrip (pystrip l) = pystrip l := by
  unfold pystrip
  rw [dropWhile_pystrip_aux, List.rdropWhile_idempotent]

theorem pystrip_infix_self (l : Str) : pystrip l <:+: l :=
  ((List.rdropWhile_prefix pyIsSpace (List.dropWhile pyIsSpace l)).isInfix).trans
    (List.dropWhile_suffix pyIsSpace).isInfix

theorem fence_prefix_fenceOpen : fence <+: fenceOpen :=
  ⟨"sql".toList, by decide⟩

theorem pystrip_cleanSql (l : Str) : pystrip (cleanSql l) = cleanSql l := by
  unfold cleanSql
  exact pystrip_idempotent _

/-- If the raw response contains no fence token anywhere, neither guard of
`cleanSql` fires on the stripped string. -/
theorem noFence_guards (l : Str) (h : ¬ fence <:+: l) :
    fenceOpen.isPrefixOf (pystrip l) = false ∧
    fence.isSuffixOf (pystrip l) = false := by
  constructor
  · by_contra hb
    rw [Bool.not_eq_false, List.isPrefixOf_iff_prefix] at hb
    exact h (((fence_prefix_fenceOpen.trans hb).isInfix).trans (pystrip_infix_self l))
  · by_contra hb
    rw [Bool.not_eq_false, List.isSuffixOf_iff_suffix] at hb
    exact h ((hb.isInfix).trans (pystrip_infix_self l))

/-- C3: the fenced input `` ```sql\nSELECT 1;\n``` `` cleans to `SELECT 1;`,
and every raw response containing no fence token is passed through with only
surrounding whitespace trimmed. -/
theorem fence_stripping_spec :
    cleanSql "```sql\nSELECT 1;\n```".toList = "SELECT 1;".toList ∧
    ∀ l : Str, ¬ fence <:+: l → cleanSql l = pystrip l := by
  refine ⟨by decide, fun l h => ?_⟩
  obtain ⟨h1, h2⟩ := noFence_guards l h
  unfold cleanSql
  simp only [h1, h2, Bool.false_eq_true, if_false]
  exact pystrip_idempotent l

theorem fence_stripping_spec_witness :
    ¬ fence <:+: "  SELECT 2  ".toList ∧
    cleanSql "  SELECT 2  ".toList = pystrip "  SELECT 2  ".toList :=
  ⟨by decide, fence_stripping_spec.2 "  SELECT 2  ".toList (by decide)⟩

/-- C4 counterexample: the clean-up is not idempotent on the input
`` ``` ``` ``: one application yields `` ``` ``, a second yields the empty
string. -/
theorem fence_stripping_not_idempotent_cex :
    ¬ cleanSql (cleanSql "``` ```".toList) = cleanSql "``` ```".toList := by
  decide

theorem cleanSql_eq_of_guards (m : Str) (hm : pystrip m = m)
    (h1 : fenceOpen.isPrefixOf m = false) (h2 : fence.isSuffixOf m = false) :
    cleanSql m = m := by
  unfold cleanSql
  simp only [hm, h1, h2, Bool.false_eq_true, if_false]

/-- C4 (amended): the clean-up is idempotent on every input whose cleaned
result does not itself begin with the `` ```sql `` opener and does not end
with the `` ``` `` closer. -/
theorem fence_stripping_idempotent_amended (l : Str)
    (h1 : fenceOpen.isPrefixOf (cleanSql l) = false)
    (h2 : fence.isSuffixOf (cleanSql l) = false) :
    cleanSql (cleanSql l) = cleanSql l :=
  cleanSql_eq_of_guards (cleanSql l) (pystrip_cleanSql l) h1 h2

/-! ## Lemmas about the pipeline states -/

theorem truthy_some_iff (m : Str) : truthy (some m) = true ↔ m ≠ [] := by
  simp [truthy, List.isEmpty_iff]

theorem errGettingSchema_ne_nil (e : Str) : errGettingSchema e ≠ [] :=
  (truthy_some_iff _).mp rfl

theorem errGeneratingSql_ne_nil (e : Str) : errGeneratingSql e ≠ [] :=
  (truthy_some_iff _).mp rfl

theorem errExecutingSql_ne_nil (e q : Str) : errExecutingSql e q ≠ [] :=
  (truthy_some_iff _).mp rfl

theorem applyUpdate_empty (s : AgentState) : applyUpdate s {} = s := rfl

theorem generate_sql_skip (llm : Str → Except Str Str) (s : AgentState)
    (h : truthy s.error = true) : generate_sql llm s = {} := by
  simp [generate_sql, h]

theorem execute_sql_skip (dbRun : Str → Str → Except Str Str) (s : AgentState)
    (h : truthy s.error = true) : execute_sql dbRun s = {} := by
  simp [execute_sql, h]

theorem stateAfterSchema_ok (o : Oracle) (q u sch : Str)
    (h : o.dbSchema u = .ok sch) :
    stateAfterSchema o q u = { question := q, db_uri := u, schema := some sch } := by
  simp [stateAfterSchema, get_schema, initialState, applyUpdate, applyField, h]

theorem stateAfterSchema_err (o : Oracle) (q u e : Str)
    (h : o.dbSchema u = .error e) :
    stateAfterSchema o q u
      = { question := q, db_uri := u, error := some (errGettingSchema e) } := by
  simp [stateAfterSchema, get_schema, initialState, applyUpdate, applyField, h]

theorem stateAfterGen_of_err (o : Oracle) (q u : Str)
    (h : truthy (stateAfterSchema o q u).error = true) :
    stateAfterGen o q u = stateAfterSchema o q u := by
  rw [stateAfterGen, generate_sql_skip _ _ h, applyUpdate_empty]

theorem stateAfterExec_of_err (o : Oracle) (q u : Str)
    (h : truthy (stateAfterGen o q u).error = true) :
    stateAfterExec o q u = stateAfterGen o q u := by
  rw [stateAfterExec, execute_sql_skip _ _ h, applyUpdate_empty]

theorem stateAfterGen_ok (o : Oracle) (q u sch resp : Str)
    (hs : o.dbSchema u = .ok sch) (hg : o.genLLM (sqlPrompt sch q) = .ok resp) :
    stateAfterGen o q u
      = { question := q, db_uri := u, schema := some sch,
          sql_query := some (cleanSql resp) } := by
  rw [stateAfterGen, stateAfterSchema_ok o q u sch hs]
  simp [generate_sql, truthy, applyUpdate, applyField, hg]

theorem stateAfterGen_err (o : Oracle) (q u sch e : Str)
    (hs : o.dbSchema u = .ok sch) (hg : o.genLLM (sqlPrompt sch q) = .error e) :
    stateAfterGen o q u
      = { question := q, db_uri := u, schema := some sch,
          error := some (errGeneratingSql e) } := by
  rw [stateAfterGen, stateAfterSchema_ok o q u sch hs]
  simp [generate_sql, truthy, applyUpdate, applyField, hg]

theorem stateAfterExec_err (o : Oracle) (q u sch resp e : Str)
    (hs : o.dbSchema u = .ok sch) (hg : o.genLLM (sqlPrompt sch q) = .ok resp)
    (hr : o.dbRun u (cleanSql resp) = .error e) :
    stateAfterExec o q u
      = { question := q, db_uri := u, schema := some sch,
          sql_query := some (cleanSql resp),
          error := some (errExecutingSql e (cleanSql resp)) } := by
  rw [stateAfterExec, stateAfterGen_ok o q u sch resp hs hg]
  simp [execute_sql, truthy, applyUpdate, applyField, hr]

theorem runPipeline_ansOk (o : Oracle) (q u a : Str)
    (h : o.ansLLM (answerPrompt (stateAfterExec o q u)) = .ok a) :
    runPipeline o q u = .ok { stateAfterExec o q u with answer := some a } := by
  simp [runPipeline, generate_answer, h, applyUpdate, applyField]

theorem runPipeline_ansErr (o : Oracle) (q u e : Str)
    (h : o.ansLLM (answerPrompt (stateAfterExec o q u)) = .error e) :
    runPipeline o q u = .error e := by
  simp [runPipeline, generate_answer, h]

theorem runPipeline_ok_inv (o : Oracle) (q u : Str) (s : AgentState)
    (h : runPipeline o q u = .ok s) :
    s.error = (stateAfterExec o q u).error := by
  cases hr : o.ansLLM (answerPrompt (stateAfterExec o q u)) with
  | ok a =>
      rw [runPipeline_ansOk o q u a hr] at h
      simp only [Except.ok.injEq] at h
      subst h
      rfl
  | error e =>
      rw [runPipeline_ansErr o q u e hr] at h
      exact absurd h (by simp)

theorem fence_stripping_idempotent_amended_witness :
    fenceOpen.isPrefixOf (cleanSql "```sql\nSELECT 3;\n```".toList) = false ∧
    fence.isSuffixOf (cleanSql "```sql\nSELECT 3;\n```".toList) = false ∧
    cleanSql (cleanSql "```sql\nSELECT 3;\n```".toList)
      = cleanSql "```sql\nSELECT 3;\n```".toList :=
  ⟨by decide, by decide,
    fence_stripping_idempotent_amended "```sql\nSELECT 3;\n```".toList
      (by decide) (by decide)⟩

/-! ## Claim theorems for the pipeline -/

/-- C1: if the schema, SQL-generation or execution stage fails, that stage
records a non-empty `error`, every later stage among
`generate_sql`/`execute_sql` returns the empty update, and the fields those
stages would set (`sql_query`, `sql_result`) stay unset. -/
theorem stage_failure_short_circuits_downstream (o : Oracle) (q u : Str) :
    (∀ e, o.dbSchema u = .error e →
      (∃ m, (stateAfterSchema o q u).error = some m ∧ m ≠ []) ∧
      generate_sql o.genLLM (stateAfterSchema o q u) = {} ∧
      execute_sql o.dbRun (stateAfterGen o q u) = {} ∧
      (stateAfterExec o q u).sql_query = none ∧
      (stateAfterExec o q u).sql_result = none) ∧
    (∀ sch e, o.dbSchema u = .ok sch → o.genLLM (sqlPrompt sch q) = .error e →
      (∃ m, (stateAfterGen o q u).error = some m ∧ m ≠ []) ∧
      execute_sql o.dbRun (stateAfterGen o q u) = {} ∧
      (stateAfterExec o q u).sql_query = none ∧
      (stateAfterExec o q u).sql_result = none) ∧
    (∀ sch resp e, o.dbSchema u = .ok sch → o.genLLM (sqlPrompt sch q) = .ok resp →
      o.dbRun u (cleanSql resp) = .error e →
      (∃ m, (stateAfterExec o q u).error = some m ∧ m ≠ []) ∧
      (stateAfterExec o q u).sql_result = none) := by
  refine ⟨fun e he => ?_, fun sch e hs hg => ?_, fun sch resp e hs hg hr => ?_⟩
  · have h1 := stateAfterSchema_err o q u e he
    have ht : truthy (stateAfterSchema o q u).error = true := by rw [h1]; rfl
    have h2 := stateAfterGen_of_err o q u ht
    have ht2 : truthy (stateAfterGen o q u).error = true := by rw [h2]; exact ht
    have h3 := stateAfterExec_of_err o q u ht2
    exact ⟨⟨errGettingSchema e, by rw [h1], errGettingSchema_ne_nil e⟩,
      generate_sql_skip _ _ ht, execute_sql_skip _ _ ht2,
      by rw [h3, h2, h1], by rw [h3, h2, h1]⟩
  · have h2 := stateAfterGen_err o q u sch e hs hg
    have ht2 : truthy (stateAfterGen o q u).error = true := by rw [h2]; rfl
    have h3 := stateAfterExec_of_err o q u ht2
    exact ⟨⟨errGeneratingSql e, by rw [h2], errGeneratingSql_ne_nil e⟩,
      execute_sql_skip _ _ ht2, by rw [h3, h2], by rw [h3, h2]⟩
  · have h3 := stateAfterExec_err o q u sch resp e hs hg hr
    exact ⟨⟨errExecutingSql e (cleanSql resp), by rw [h3],
      errExecutingSql_ne_nil e (cleanSql resp)⟩, by rw [h3]⟩

theorem stage_failure_short_circuits_downstream_witness :
    ((∃ m, (stateAfterSchema schemaFailOracle "q".toList "u".toList).error
        = some m ∧ m ≠ []) ∧
      generate_sql schemaFailOracle.genLLM
        (stateAfterSchema schemaFailOracle "q".toList "u".toList) = {} ∧
      execute_sql schemaFailOracle.dbRun
        (stateAfterGen schemaFailOracle "q".toList "u".toList) = {} ∧
      (stateAfterExec schemaFailOracle "q".toList "u".toList).sql_query = none ∧
      (stateAfterExec schemaFailOracle "q".toList "u".toList).sql_result = none) ∧
    ((∃ m, (stateAfterGen genFailOracle "q".toList "u".toList).error
        = some m ∧ m ≠ []) ∧
      execute_sql genFailOracle.dbRun
        (stateAfterGen genFailOracle "q".toList "u".toList) = {} ∧
      (stateAfterExec genFailOracle "q".toList "u".toList).sql_query = none ∧
      (stateAfterExec genFailOracle "q".toList "u".toList).sql_result = none) ∧
    ((∃ m, (stateAfterExec execFailOracle "q".toList "u".toList).error
        = some m ∧ m ≠ []) ∧
      (stateAfterExec execFailOracle "q".toList "u".toList).sql_result = none) :=
  ⟨(stage_failure_short_circuits_downstream schemaFailOracle "q".toList "u".toList).1
      "connection refused".toList rfl,
    (stage_failure_short_circuits_downstream genFailOracle "q".toList "u".toList).2.1
      "users(id integer)".toList "rate limit".toList rfl rfl,
    (stage_failure_short_circuits_downstream execFailOracle "q".toList "u".toList).2.2
      "users(id integer)".toList "SELECT COUNT(*) FROM users;".toList
      "missing relation".toList rfl rfl rfl⟩

/-- C2: the answer synthesizer runs on every pipeline invocation — the run's
outcome is exactly the outcome of its single LLM call — and whenever that
call returns text, `answer` is set to it, whatever the state's `error`
(the node has no skip guard; both prompt branches feed the same
`answer := response` return). -/
theorem answer_synthesizer_always_runs :
    (∀ (llm : Str → Except Str Str) (s : AgentState) (a : Str),
      llm (answerPrompt s) = .ok a →
      generate_answer llm s = .ok { answer := some (some a) }) ∧
    (∀ (o : Oracle) (q u a : Str),
      o.ansLLM (answerPrompt (stateAfterExec o q u)) = .ok a →
      runPipeline o q u = .ok { stateAfterExec o q u with answer := some a }) := by
  constructor
  · intro llm s a h
    simp [generate_answer, h]
  · intro o q u a h
    exact runPipeline_ansOk o q u a h

theorem answer_synthesizer_always_runs_witness :
    generate_answer (fun _ => .ok "apologies".toList) errStateA
      = .ok { answer := some (some "apologies".toList) } ∧
    runPipeline schemaFailOracle "q".toList "u".toList
      = .ok { stateAfterExec schemaFailOracle "q".toList "u".toList with
              answer := some "There are 42 users.".toList } :=
  ⟨answer_synthesizer_always_runs.1 _ errStateA "apologies".toList rfl,
    answer_synthesizer_always_runs.2 schemaFailOracle "q".toList "u".toList
      "There are 42 users.".toList rfl⟩

/-- C5: when `error` is non-empty the answer prompt is built from the error
branch only, so two states agreeing on `question` and on a non-empty
`error` yield the same prompt whatever their `sql_query`/`sql_result`. -/
theorem error_prompt_independent_of_sql_fields (s1 s2 : AgentState)
    (hq : s1.question = s2.question) (he : s1.error = s2.error)
    (ht : truthy s1.error = true) :
    answerPrompt s1 = answerPrompt s2 := by
  unfold answerPrompt
  rw [← he, ht, hq]
  simp

theorem error_prompt_independent_of_sql_fields_witness :
    errStateA.sql_query ≠ errStateB.sql_query ∧
    errStateA.sql_result ≠ errStateB.sql_result ∧
    answerPrompt errStateA = answerPrompt errStateB :=
  ⟨by decide, by decide,
    error_prompt_independent_of_sql_fields errStateA errStateB rfl rfl rfl⟩

/-- C6: once a stage has recorded a non-empty `error`, every later stage of
the run leaves it untouched: the remaining states and any successful final
state carry the very same `error` value. -/
theorem error_persists_once_set (o : Oracle) (q u : Str) :
    (truthy (stateAfterSchema o q u).error = true →
      (stateAfterGen o q u).error = (stateAfterSchema o q u).error ∧
      (stateAfterExec o q u).error = (stateAfterSchema o q u).error ∧
      ∀ s, runPipeline o q u = .ok s →
        s.error = (stateAfterSchema o q u).error) ∧
    (truthy (stateAfterGen o q u).error = true →
      (stateAfterExec o q u).error = (stateAfterGen o q u).error ∧
      ∀ s, runPipeline o q u = .ok s →
        s.error = (stateAfterGen o q u).error) ∧
    (truthy (stateAfterExec o q u).error = true →
      ∀ s, runPipeline o q u = .ok s →
        s.error = (stateAfterExec o q u).error) := by
  refine ⟨fun h1 => ?_, fun h2 => ?_, fun h3 => ?_⟩
  · have e2 := stateAfterGen_of_err o q u h1
    have h2' : truthy (stateAfterGen o q u).error = true := by rw [e2]; exact h1
    have e3 := stateAfterExec_of_err o q u h2'
    exact ⟨by rw [e2], by rw [e3, e2],
      fun s hs => by rw [runPipeline_ok_inv o q u s hs, e3, e2]⟩
  · have e3 := stateAfterExec_of_err o q u h2
    exact ⟨by rw [e3], fun s hs => by rw [runPipeline_ok_inv o q u s hs, e3]⟩
  · exact fun s hs => runPipeline_ok_inv o q u s hs

theorem error_persists_once_set_witness :
    (stateAfterGen schemaFailOracle "q".toList "u".toList).error
      = (stateAfterSchema schemaFailOracle "q".toList "u".toList).error ∧
    (stateAfterExec schemaFailOracle "q".toList "u".toList).error
      = (stateAfterSchema schemaFailOracle "q".toList "u".toList).error ∧
    ∀ s, runPipeline schemaFailOracle "q".toList "u".toList = .ok s →
      s.error = (stateAfterSchema schemaFailOracle "q".toList "u".toList).error :=
  (error_persists_once_set schemaFailOracle "q".toList "u".toList).1 (by decide)

/-- C7: when `execute_sql` runs (no prior error) and the database call
raises, the update leaves `sql_result` unset and records an error message
that contains both the exception text and the full offending query. -/
theorem execute_sql_failure_message (dbRun : Str → Str → Except Str Str)
    (s : AgentState) (e query : Str)
    (hs : truthy s.error = false) (hq : s.sql_query = some query)
    (hr : dbRun s.db_uri query = .error e) :
    (execute_sql dbRun s).sql_result = none ∧
    (execute_sql dbRun s).error = some (some (errExecutingSql e query)) ∧
    e <:+: errExecutingSql e query ∧ query <:+: errExecutingSql e query := by
  refine ⟨?_, ?_, ?_, ?_⟩
  · simp [execute_sql, hs, hq, hr]
  · simp [execute_sql, hs, hq, hr]
  · exact ⟨"Error executing SQL: ".toList, ". Check your query: ".toList ++ query,
      by simp [errExecutingSql, List.append_assoc]⟩
  · exact ⟨"Error executing SQL: ".toList ++ e ++ ". Check your query: ".toList, [],
      by simp [errExecutingSql, List.append_assoc]⟩

theorem execute_sql_failure_message_witness :
    (execute_sql (fun _ _ => .error "missing relation".toList)
        { question := "q".toList, db_uri := "u".toList,
          sql_query := some "SELECT 1;".toList }).sql_result = none ∧
    (execute_sql (fun _ _ => .error "missing relation".toList)
        { question := "q".toList, db_uri := "u".toList,
          sql_query := some "SELECT 1;".toList }).error
      = some (some (errExecutingSql "missing relation".toList "SELECT 1;".toList)) ∧
    "missing relation".toList
      <:+: errExecutingSql "missing relation".toList "SELECT 1;".toList ∧
    "SELECT 1;".toList
      <:+: errExecutingSql "missing relation".toList "SELECT 1;".toList :=
  execute_sql_failure_message (fun _ _ => .error "missing relation".toList)
    { question := "q".toList, db_uri := "u".toList,
      sql_query := some "SELECT 1;".toList }
    "missing relation".toList "SELECT 1;".toList rfl rfl rfl

/-- C8: `run_agent_graph` returns the final state's `answer`, substituting
the fixed fallback message when `answer` is unset (and propagating an
escaping exception unchanged, which is the only non-`ok` outcome). -/
theorem run_agent_graph_returns_answer_or_fallback (o : Oracle) (q u : Str) :
    run_agent_graph o q u
      = (runPipeline o q u).map (fun s => s.answer.getD fallbackMsg) ∧
    (∀ s : AgentState, s.answer = none → s.answer.getD fallbackMsg = fallbackMsg) := by
  constructor
  · unfold run_agent_graph
    cases h : runPipeline o q u <;> simp [Except.map]
  · intro s hs
    rw [hs]
    rfl

theorem run_agent_graph_returns_answer_or_fallback_witness :
    run_agent_graph happyOracle "q".toList "u".toList
      = (runPipeline happyOracle "q".toList "u".toList).map
          (fun s => s.answer.getD fallbackMsg) ∧
    (initialState "q".toList "u".toList).answer.getD fallbackMsg = fallbackMsg :=
  ⟨(run_agent_graph_returns_answer_or_fallback happyOracle "q".toList "u".toList).1,
    (run_agent_graph_returns_answer_or_fallback happyOracle "q".toList "u".toList).2
      (initialState "q".toList "u".toList) rfl⟩

/-- C9: a failure of the answer synthesizer's LLM call is caught nowhere:
it aborts the graph invocation and escapes `run_agent_graph` itself,
instead of being recorded in `error` or turned into an `answer`. -/
theorem answer_llm_failure_propagates (o : Oracle) (q u e : Str)
    (h : o.ansLLM (answerPrompt (stateAfterExec o q u)) = .error e) :
    runPipeline o q u = .error e ∧ run_agent_graph o q u = .error e := by
  have h1 := runPipeline_ansErr o q u e h
  exact ⟨h1, by unfold run_agent_graph; rw [h1]⟩

theorem answer_llm_failure_propagates_witness :
    runPipeline ansFailOracle "q".toList "u".toList = .error "llm down".toList ∧
    run_agent_graph ansFailOracle "q".toList "u".toList = .error "llm down".toList :=
  answer_llm_failure_propagates ansFailOracle "q".toList "u".toList
    "llm down".toList rfl

/-- C10: `get_schema` has no skip-if-error guard: on any state — including
one whose `error` is non-empty — it performs its work; on success its update
sets `schema` and explicitly maps `error` to `None`, so the merged state has
its previous error cleared; on failure it records the failure message. -/
theorem get_schema_unguarded_clears_error (dbS : Str → Except Str Str)
    (s : AgentState) :
    (∀ sch, dbS s.db_uri = .ok sch →
      get_schema dbS s = { schema := some (some sch), error := some none } ∧
      (applyUpdate s (get_schema dbS s)).schema = some sch ∧
      (applyUpdate s (get_schema dbS s)).error = none) ∧
    (∀ e, dbS s.db_uri = .error e →
      get_schema dbS s = { error := some (some (errGettingSchema e)) }) := by
  constructor
  · intro sch h
    refine ⟨by simp [get_schema, h], ?_, ?_⟩ <;>
      simp [get_schema, h, applyUpdate, applyField]
  · intro e h
    simp [get_schema, h]

theorem get_schema_unguarded_clears_error_witness :
    truthy errStateA.error = true ∧
    (get_schema (fun _ => .ok "users(id integer)".toList) errStateA
        = { schema := some (some "users(id integer)".toList), error := some none } ∧
      (applyUpdate errStateA
        (get_schema (fun _ => .ok "users(id integer)".toList) errStateA)).schema
        = some "users(id integer)".toList ∧
      (applyUpdate errStateA
        (get_schema (fun _ => .ok "users(id integer)".toList) errStateA)).error
        = none) :=
  ⟨by decide,
    (get_schema_unguarded_clears_error (fun _ => .ok "users(id integer)".toList)
      errStateA).1 "users(id integer)".toList rfl⟩

end Agent
